import Mathlib

/-!
Verification development for the print-session controller and page-geometry
reconciliation engine of chrome/renderer/printing/print_web_view_helper.cc.

The geometry functions of the anonymous namespace are embedded as pure Lean
functions; machine integers are modelled as Int (all quantities involved stay
far from 32-bit overflow in every statement below), C++ double values as Rat,
and a C++ CHECK failure (process abort) as Option.none.  The controller
(PrintWebViewHelper) is embedded as a state-passing step function over an
explicit record of its session-relevant fields, with the responses of the
privileged host process and of the rendering engine supplied as oracle
inputs, and every outgoing host message recorded in a trace.
-/

set_option maxRecDepth 40000

namespace Printing

/-- Truncation toward zero: the semantics of a C++ static cast from a
floating-point (here: rational) value to int. -/
def cppTrunc (q : ℚ) : Int := if 0 ≤ q then ⌊q⌋ else ⌈q⌉

/-- Modelled from the spec: the unit-conversion helper of the printing units
library (printing/units), which is not part of the source tree.  Spec section
4.1 numeric semantics: a conversion is value * targetUnitsPerInch /
sourceUnitsPerInch rounded to nearest integer; the rounding adds half of the
source unit to the scaled value (subtracts it for negative values) before an
integer division that truncates toward zero. -/
def ConvertUnit (value oldUnit newUnit : Int) : Int :=
  if 0 ≤ value then Int.tdiv (value * newUnit + Int.tdiv oldUnit 2) oldUnit
  else Int.tdiv (value * newUnit - Int.tdiv oldUnit 2) oldUnit

def kPointsPerInch : Int := 72

def kPixelsPerInch : Int := 96

def kMinDpi : ℚ := 1

/-- Modelled from the spec: two-dimensional integer size (the gfx size type,
not part of the source tree).  It is empty when either dimension is not
positive; the spec validity invariant requires non-empty rectangles. -/
structure GSize where
  width : Int
  height : Int
deriving Repr, DecidableEq

def GSize.IsEmpty (s : GSize) : Bool := s.width ≤ 0 || s.height ≤ 0

/-- Modelled from the spec: integer rectangle (the gfx rect type, not part of
the source tree): origin x/y plus width/height. -/
structure GRect where
  x : Int
  y : Int
  width : Int
  height : Int
deriving Repr, DecidableEq

def GRect.IsEmpty (r : GRect) : Bool := r.width ≤ 0 || r.height ≤ 0

/-- blink::WebPrintScalingOption. -/
inductive WebPrintScalingOption where
  | optionNone
  | sourceSize
  | fitToPrintableArea
deriving Repr, DecidableEq

/-- PrintMsg_Print_Params: the print-parameter value type exchanged with the
host process.  Field shapes follow their uses in the source; dpi,
desired_dpi, min_shrink and max_shrink are C++ doubles, modelled as Rat. -/
structure PrintMsg_Print_Params where
  page_size : GSize
  content_size : GSize
  printable_area : GRect
  margin_top : Int
  margin_left : Int
  dpi : ℚ
  desired_dpi : ℚ
  min_shrink : ℚ
  max_shrink : ℚ
  document_cookie : Int
  print_scaling_option : WebPrintScalingOption
  should_print_backgrounds : Bool
  selection_only : Bool
deriving Repr, DecidableEq

/-- GetDPI, non-Mac branch: static_cast to int of the device resolution.
(On OS_MACOSX the source instead returns kPointsPerInch; the general branch
is embedded.) -/
def GetDPI (p : PrintMsg_Print_Params) : Int := cppTrunc p.dpi

/-- PrintMsg_Print_Params_IsValid, clause for clause from the source. -/
def PrintMsg_Print_Params_IsValid (p : PrintMsg_Print_Params) : Bool :=
  !p.content_size.IsEmpty && !p.page_size.IsEmpty &&
  !p.printable_area.IsEmpty && decide (p.document_cookie ≠ 0) &&
  decide (p.desired_dpi ≠ 0) && decide (p.max_shrink ≠ 0) &&
  decide (p.min_shrink ≠ 0) && decide (p.dpi ≠ 0) &&
  decide (p.margin_top ≥ 0) && decide (p.margin_left ≥ 0) &&
  decide (p.dpi > kMinDpi) && decide (p.document_cookie ≠ 0)

/-- The six in/out values of frame->pageSizeAndMarginsInPixels. -/
structure PixelGeom where
  page_size_in_pixels : GSize
  margin_top_in_pixels : Int
  margin_right_in_pixels : Int
  margin_bottom_in_pixels : Int
  margin_left_in_pixels : Int
deriving Repr, DecidableEq

/-- The rendering surface as consumed by GetCssPrintParams: an opaque
per-page CSS geometry override (pageSizeAndMarginsInPixels receives the
base pixel geometry by reference and may overwrite any of it). -/
structure WebFrame where
  pageSizeAndMarginsInPixels : Int → PixelGeom → PixelGeom

/-- The pre-override pixel geometry computed by GetCssPrintParams from the
base parameters (lines 77-92 of the source). -/
def cssBasePixels (page_params : PrintMsg_Print_Params) : PixelGeom :=
  let dpi := GetDPI page_params
  { page_size_in_pixels :=
      ⟨ConvertUnit page_params.page_size.width dpi kPixelsPerInch,
       ConvertUnit page_params.page_size.height dpi kPixelsPerInch⟩,
    margin_top_in_pixels :=
      ConvertUnit page_params.margin_top dpi kPixelsPerInch,
    margin_right_in_pixels :=
      ConvertUnit (page_params.page_size.width -
        page_params.content_size.width - page_params.margin_left)
        dpi kPixelsPerInch,
    margin_bottom_in_pixels :=
      ConvertUnit (page_params.page_size.height -
        page_params.content_size.height - page_params.margin_top)
        dpi kPixelsPerInch,
    margin_left_in_pixels :=
      ConvertUnit page_params.margin_left dpi kPixelsPerInch }

/-- The tail of GetCssPrintParams after the optional surface override (lines
105-136 of the source): recompute the content size from the (possibly
overridden) pixel geometry and convert back; none models the degenerate
branch (new content width or height below 1). -/
def cssPack (page_params : PrintMsg_Print_Params) (g : PixelGeom)
    (original_page_size_in_pixels : GSize) : Option PrintMsg_Print_Params :=
  if g.page_size_in_pixels.width - g.margin_left_in_pixels -
       g.margin_right_in_pixels < 1 ∨
     g.page_size_in_pixels.height - g.margin_top_in_pixels -
       g.margin_bottom_in_pixels < 1 then Option.none
  else Option.some { page_params with
    content_size :=
      ⟨ConvertUnit (g.page_size_in_pixels.width - g.margin_left_in_pixels -
         g.margin_right_in_pixels) kPixelsPerInch (GetDPI page_params),
       ConvertUnit (g.page_size_in_pixels.height - g.margin_top_in_pixels -
         g.margin_bottom_in_pixels) kPixelsPerInch (GetDPI page_params)⟩,
    page_size :=
      if original_page_size_in_pixels ≠ g.page_size_in_pixels then
        ⟨ConvertUnit g.page_size_in_pixels.width kPixelsPerInch
           (GetDPI page_params),
         ConvertUnit g.page_size_in_pixels.height kPixelsPerInch
           (GetDPI page_params)⟩
      else page_params.page_size,
    margin_top := ConvertUnit g.margin_top_in_pixels kPixelsPerInch
      (GetDPI page_params),
    margin_left := ConvertUnit g.margin_left_in_pixels kPixelsPerInch
      (GetDPI page_params) }

/-- GetCssPrintParams.  The source recurses with a NULL frame when the
overridden geometry is degenerate; on the NULL-frame path a degenerate
geometry trips CHECK(frame != NULL), an unconditional process abort, which
is modelled as none. -/
def GetCssPrintParams (frame : Option WebFrame) (page_index : Int)
    (page_params : PrintMsg_Print_Params) : Option PrintMsg_Print_Params :=
  let base := cssBasePixels page_params
  match frame with
  | Option.none => cssPack page_params base base.page_size_in_pixels
  | Option.some f =>
    let g := f.pageSizeAndMarginsInPixels page_index base
    match cssPack page_params g base.page_size_in_pixels with
    | Option.some r => Option.some r
    | Option.none =>
      cssPack page_params base base.page_size_in_pixels

/-- FitPrintParamsToPage.  The C++ routine mutates params_to_fit and returns
the applied scale factor; the embedding returns the pair (scale factor,
updated parameters).  C++ double arithmetic is modelled exactly over Rat
(a division by a zero css page dimension, undefined in C++, yields 0 here;
no statement below exercises it). -/
def FitPrintParamsToPage (page_params : PrintMsg_Print_Params)
    (params_to_fit : PrintMsg_Print_Params) :
    ℚ × PrintMsg_Print_Params :=
  let content_width : ℚ := (params_to_fit.content_size.width : ℚ)
  let content_height : ℚ := (params_to_fit.content_size.height : ℚ)
  let default_page_size_height := page_params.page_size.height
  let default_page_size_width := page_params.page_size.width
  let css_page_size_height := params_to_fit.page_size.height
  let css_page_size_width := params_to_fit.page_size.width
  if page_params.page_size = params_to_fit.page_size then
    (1, params_to_fit)
  else
    let scaled : ℚ × ℚ × ℚ :=
      if default_page_size_width < css_page_size_width ∨
         default_page_size_height < css_page_size_height then
        let ratio_width : ℚ :=
          (default_page_size_width : ℚ) / (css_page_size_width : ℚ)
        let ratio_height : ℚ :=
          (default_page_size_height : ℚ) / (css_page_size_height : ℚ)
        let scale_factor :=
          if ratio_width < ratio_height then ratio_width else ratio_height
        (scale_factor, content_width * scale_factor,
         content_height * scale_factor)
      else (1, content_width, content_height)
    let scale_factor := scaled.1
    let margin_top := cppTrunc
      (((default_page_size_height : ℚ) -
          (css_page_size_height : ℚ) * scale_factor) / 2 +
        (params_to_fit.margin_top : ℚ) * scale_factor)
    let margin_left := cppTrunc
      (((default_page_size_width : ℚ) -
          (css_page_size_width : ℚ) * scale_factor) / 2 +
        (params_to_fit.margin_left : ℚ) * scale_factor)
    (scale_factor, { params_to_fit with
      margin_top := margin_top,
      margin_left := margin_left,
      content_size := ⟨cppTrunc scaled.2.1, cppTrunc scaled.2.2⟩,
      page_size := page_params.page_size })

/-- printing::PageSizeMargins: a per-page layout in points.  The C++ struct
holds doubles, but every value assigned by the source is an int returned by
ConvertUnit. -/
structure PageSizeMargins where
  content_width : Int
  content_height : Int
  margin_top : Int
  margin_right : Int
  margin_bottom : Int
  margin_left : Int
deriving Repr, DecidableEq

/-- CalculatePageLayoutFromPrintParams. -/
def CalculatePageLayoutFromPrintParams (params : PrintMsg_Print_Params) :
    PageSizeMargins :=
  let dpi := GetDPI params
  let content_width := params.content_size.width
  let content_height := params.content_size.height
  let margin_bottom := params.page_size.height -
    content_height - params.margin_top
  let margin_right := params.page_size.width -
    content_width - params.margin_left
  { content_width := ConvertUnit content_width dpi kPointsPerInch,
    content_height := ConvertUnit content_height dpi kPointsPerInch,
    margin_top := ConvertUnit params.margin_top dpi kPointsPerInch,
    margin_right := ConvertUnit margin_right dpi kPointsPerInch,
    margin_bottom := ConvertUnit margin_bottom dpi kPointsPerInch,
    margin_left := ConvertUnit params.margin_left dpi kPointsPerInch }

/-- EnsureOrientationMatches: swap width and height of the page size, the
content size and the printable-area size when the landscape-ness of the page
parameters disagrees with that of the CSS parameters. -/
def EnsureOrientationMatches (css_params : PrintMsg_Print_Params)
    (page_params : PrintMsg_Print_Params) : PrintMsg_Print_Params :=
  if (page_params.page_size.width > page_params.page_size.height) ↔
     (css_params.page_size.width > css_params.page_size.height) then
    page_params
  else
    { page_params with
      page_size := ⟨page_params.page_size.height,
                    page_params.page_size.width⟩,
      content_size := ⟨page_params.content_size.height,
                       page_params.content_size.width⟩,
      printable_area := { page_params.printable_area with
        width := page_params.printable_area.height,
        height := page_params.printable_area.width } }

/-- CalculatePrintParamsForCss.  none propagates a CHECK abort from
GetCssPrintParams.  The scale_factor out parameter is not modelled here; the
fit branch applies FitPrintParamsToPage and keeps its updated parameters. -/
def CalculatePrintParamsForCss (frame : Option WebFrame) (page_index : Int)
    (page_params : PrintMsg_Print_Params)
    (ignore_css_margins fit_to_page : Bool) :
    Option PrintMsg_Print_Params :=
  match GetCssPrintParams frame page_index page_params with
  | Option.none => Option.none
  | Option.some css_params =>
    let params := EnsureOrientationMatches css_params page_params
    if ignore_css_margins ∧ fit_to_page then Option.some params
    else
      let result_params := css_params
      let result_params :=
        if ignore_css_margins then
          let default_margin_right := params.page_size.width -
            params.content_size.width - params.margin_left
          let default_margin_bottom := params.page_size.height -
            params.content_size.height - params.margin_top
          { result_params with
            margin_top := params.margin_top,
            margin_left := params.margin_left,
            content_size :=
              ⟨result_params.page_size.width - params.margin_left -
                 default_margin_right,
               result_params.page_size.height - params.margin_top -
                 default_margin_bottom⟩ }
        else result_params
      if fit_to_page then
        Option.some (FitPrintParamsToPage params result_params).2
      else Option.some result_params

/-- PrintWebViewHelper::PrintingResult. -/
inductive PrintingResult where
  | OK
  | FAIL_PRINT_INIT
  | FAIL_PRINT
deriving Repr, DecidableEq

/-- PrintMsg_PrintPages_Params: session parameters plus the explicit list of
requested page indices (empty meaning all pages). -/
structure PrintMsg_PrintPages_Params where
  params : PrintMsg_Print_Params
  pages : List Int
deriving Repr, DecidableEq

/-- One observable step of the controller: an outgoing host message or a
per-page rasterization call (PrintPageInternal). -/
inductive TraceEvent where
  | GetDefaultPrintSettings
  | ShowInvalidPrinterSettingsError
  | ScriptedPrint (cookie : Int) (expected_pages_count : Int)
  | DidGetPrintedPagesCount (cookie : Int) (page_count : Int)
  | PrintingFailed (cookie : Int)
  | RenderPage (page_number : Int)
deriving Repr, DecidableEq

/-- The session-relevant mutable fields of PrintWebViewHelper.  The
surface-preparation object (prep_frame_view_, a PrepareFrameAndViewForPrint
owned pointer) is reduced to its presence, which is all the controller logic
inspects besides handing it to the rendering loop. -/
structure HelperState where
  prep_frame_view : Option Unit
  print_pages_params : Option PrintMsg_PrintPages_Params
  ignore_css_margins : Bool
  notify_browser_of_print_failure : Bool
deriving Repr, DecidableEq

/-- Responses of the external collaborators (host process and rendering
engine), supplied as oracles to the controller step functions. -/
structure World where
  defaultSettings : PrintMsg_Print_Params
  scriptedPrintResponse : PrintMsg_PrintPages_Params
  pageCountAtCalculate : Int
  pageCountAtPrint : Int
  printingNodeOrPdfFrame : Bool
deriving Repr

/-- Placeholder parameters: the C++ sites below dereference
print_pages_params_ unconditionally (it is non-null at every such site in
every flow modelled); the placeholder stands for that dereference in the
Option model and is never reached with the field absent. -/
def dummyPagesParams : PrintMsg_PrintPages_Params :=
  { params :=
    { page_size := ⟨0, 0⟩, content_size := ⟨0, 0⟩,
      printable_area := ⟨0, 0, 0, 0⟩, margin_top := 0, margin_left := 0,
      dpi := 0, desired_dpi := 0, min_shrink := 0, max_shrink := 0,
      document_cookie := 0,
      print_scaling_option := WebPrintScalingOption.optionNone,
      should_print_backgrounds := false, selection_only := false },
    pages := [] }

/-- PrintWebViewHelper::DidFinishPrinting: on FAIL_PRINT with notification
enabled and a session present, send the failure notice with the document
cookie; always clear the surface-preparation object and the session
parameters and re-arm failure notification. -/
def DidFinishPrinting (result : PrintingResult) (s : HelperState) :
    HelperState × List TraceEvent :=
  let sent : List TraceEvent :=
    match result with
    | PrintingResult.FAIL_PRINT =>
      match s.print_pages_params with
      | Option.some pp =>
        if s.notify_browser_of_print_failure then
          [TraceEvent.PrintingFailed pp.params.document_cookie]
        else []
      | Option.none => []
    | _ => []
  ({ prep_frame_view := Option.none,
     print_pages_params := Option.none,
     ignore_css_margins := s.ignore_css_margins,
     notify_browser_of_print_failure := true }, sent)

/-- PrintWebViewHelper::SetPrintPagesParams. -/
def SetPrintPagesParams (settings : PrintMsg_PrintPages_Params)
    (s : HelperState) : HelperState :=
  { s with print_pages_params := Option.some settings }

/-- PrintWebViewHelper::InitPrintSettings: requests default settings from the
host (response supplied as an oracle), validates them, resets the
ignore-CSS-margins flag, clears the page list, sets the scaling option from
the fit-to-paper flag and installs the settings wholesale; returns false when
validation failed. -/
def InitPrintSettings (fit_to_paper_size : Bool)
    (response : PrintMsg_Print_Params) (s : HelperState) :
    HelperState × List TraceEvent × Bool :=
  let result := PrintMsg_Print_Params_IsValid response
  let s := { s with ignore_css_margins := false }
  let settings : PrintMsg_PrintPages_Params :=
    { params := { response with print_scaling_option :=
        if fit_to_paper_size then WebPrintScalingOption.fitToPrintableArea
        else WebPrintScalingOption.sourceSize },
      pages := [] }
  (SetPrintPagesParams settings s, [TraceEvent.GetDefaultPrintSettings],
   result)

/-- PrintWebViewHelper::CalculateNumberOfPages: none models returning false.
The expected page count of the provisional surface pass is the
pageCountAtCalculate oracle. -/
def CalculateNumberOfPages (w : World) (s : HelperState) :
    HelperState × List TraceEvent × Option Int :=
  let fit_to_paper_size := ! w.printingNodeOrPdfFrame
  match InitPrintSettings fit_to_paper_size w.defaultSettings s with
  | (s, sent, ok) =>
    if ok then (s, sent, Option.some w.pageCountAtCalculate)
    else ({ s with notify_browser_of_print_failure := false },
          sent ++ [TraceEvent.ShowInvalidPrinterSettingsError],
          Option.none)

/-- PrintWebViewHelper::GetPrintSettingsFromUser: blocking round trip to the
host (response supplied as an oracle); the scaling option is preserved across
the round trip; returns false when the response carries a zero resolution or
a zero document cookie. -/
def GetPrintSettingsFromUser (w : World) (expected_pages_count : Int)
    (s : HelperState) : HelperState × List TraceEvent × Bool :=
  let cur := s.print_pages_params.getD dummyPagesParams
  let cookie := cur.params.document_cookie
  let scaling_option := cur.params.print_scaling_option
  let s := { s with print_pages_params := Option.none }
  let print_settings : PrintMsg_PrintPages_Params :=
    { w.scriptedPrintResponse with params :=
      { w.scriptedPrintResponse.params with
        print_scaling_option := scaling_option } }
  (SetPrintPagesParams print_settings s,
   [TraceEvent.ScriptedPrint cookie expected_pages_count],
   decide (print_settings.params.dpi ≠ 0) &&
     decide (print_settings.params.document_cookie ≠ 0))

/-- The page loop of PrintWebViewHelper::PrintPagesNative for an explicit
page list: iteration stops (break) at the first index not below the page
count.  Returns the indices handed to PrintPageInternal, in order. -/
def printPagesLoop (pages : List Int) (page_count : Int) : List Int :=
  match pages with
  | [] => []
  | p :: rest =>
    if p ≥ page_count then []
    else p :: printPagesLoop rest page_count

/-- All page indices 0, 1, ..., n-1 (the empty-list branch of
PrintPagesNative). -/
def intRange (n : Int) : List Int :=
  (List.range n.toNat).map (fun k => (k : Int))

/-- PrintWebViewHelper::PrintPagesNative: renders either every index in
order, or the explicit requested list up to the first out-of-range index.
Returns success plus the rendered page numbers. -/
def PrintPagesNative (pp : PrintMsg_PrintPages_Params) (page_count : Int) :
    Bool × List Int :=
  if pp.pages = [] then (true, intRange page_count)
  else (true, printPagesLoop pp.pages page_count)

/-- PrintWebViewHelper::PrintPages: no-op without a surface-preparation
object; StartPrinting yields the pageCountAtPrint oracle as expected page
count; a zero count terminates with FAIL_PRINT before the page-count notice
and before any rendering.  The third component is the result passed to
DidFinishPrinting during the call, if any. -/
def PrintPages (w : World) (s : HelperState) :
    HelperState × List TraceEvent × Option PrintingResult :=
  match s.prep_frame_view with
  | Option.none => (s, [], Option.none)
  | Option.some _ =>
    let page_count := w.pageCountAtPrint
    if page_count = 0 then
      match DidFinishPrinting PrintingResult.FAIL_PRINT s with
      | (s, sent) => (s, sent, Option.some PrintingResult.FAIL_PRINT)
    else
      let params := s.print_pages_params.getD dummyPagesParams
      let sent := [TraceEvent.DidGetPrintedPagesCount
        params.params.document_cookie page_count]
      match PrintPagesNative params page_count with
      | (ok, rendered) =>
        if ok then
          (s, sent ++ rendered.map TraceEvent.RenderPage, Option.none)
        else
          match DidFinishPrinting PrintingResult.FAIL_PRINT s with
          | (s2, sent2) =>
            (s2, sent ++ rendered.map TraceEvent.RenderPage ++ sent2,
             Option.some PrintingResult.FAIL_PRINT)

/-- PrintWebViewHelper::RenderPagesForPrint combined with the on-ready
continuation OnFramePreparedForPrintPages (PrintPages then
FinishFramePrinting).  For a selection-only session the continuation is
deferred until the cloned surface finishes loading, so the call returns with
the preparation object installed and rendering still pending.  Components:
final state, trace, return value of RenderPagesForPrint, and the result
passed to DidFinishPrinting inside the continuation, if any. -/
def RenderPagesForPrint (w : World) (s : HelperState) :
    HelperState × List TraceEvent × Bool × Option PrintingResult :=
  if s.prep_frame_view.isSome then (s, [], false, Option.none)
  else
    let selection_only :=
      (s.print_pages_params.getD dummyPagesParams).params.selection_only
    let s := { s with prep_frame_view := Option.some () }
    if selection_only then (s, [], true, Option.none)
    else
      match PrintPages w s with
      | (s, sent, res) =>
        ({ s with prep_frame_view := Option.none }, sent, true, res)

/-- PrintWebViewHelper::Print.  The third component is the result passed to
DidFinishPrinting during the call, if any (at most one such call occurs on
every path). -/
def Print (w : World) (silent print_background : Bool) (s : HelperState) :
    HelperState × List TraceEvent × Option PrintingResult :=
  if s.prep_frame_view.isSome then (s, [], Option.none)
  else
    match CalculateNumberOfPages w s with
    | (s, sent, Option.none) =>
      match DidFinishPrinting PrintingResult.FAIL_PRINT_INIT s with
      | (s, sent2) =>
        (s, sent ++ sent2, Option.some PrintingResult.FAIL_PRINT_INIT)
    | (s, sent, Option.some expected_page_count) =>
      if expected_page_count = 0 then
        match DidFinishPrinting PrintingResult.FAIL_PRINT s with
        | (s, sent2) =>
          (s, sent ++ sent2, Option.some PrintingResult.FAIL_PRINT)
      else
        match (if silent then (s, ([] : List TraceEvent), true)
               else GetPrintSettingsFromUser w expected_page_count s) with
        | (s, sent2, ok) =>
          if !ok then
            match DidFinishPrinting PrintingResult.OK s with
            | (s, sent3) =>
              (s, sent ++ sent2 ++ sent3, Option.some PrintingResult.OK)
          else
            let s := { s with print_pages_params :=
              s.print_pages_params.map (fun pp =>
                { pp with params := { pp.params with
                  should_print_backgrounds := print_background } }) }
            match RenderPagesForPrint w s with
            | (s, sent4, rok, res) =>
              if rok then (s, sent ++ sent2 ++ sent4, res)
              else
                match DidFinishPrinting PrintingResult.FAIL_PRINT s with
                | (s, sent5) =>
                  (s, sent ++ sent2 ++ sent4 ++ sent5,
                   Option.some PrintingResult.FAIL_PRINT)

/-! ### Concrete inputs used by witnesses and counterexamples -/

/-- US Letter at 72 dpi: page 612x792, content 576x756, margins 18/18
(the baseline scenario of the spec). -/
def validParams72 : PrintMsg_Print_Params :=
  { page_size := ⟨612, 792⟩, content_size := ⟨576, 756⟩,
    printable_area := ⟨0, 0, 612, 792⟩, margin_top := 18, margin_left := 18,
    dpi := 72, desired_dpi := 72, min_shrink := 5/4, max_shrink := 2,
    document_cookie := 5,
    print_scaling_option := WebPrintScalingOption.sourceSize,
    should_print_backgrounds := false, selection_only := false }

/-- The same geometry expressed at a 300 dpi device resolution scale is NOT
used here: this record keeps the 300 dpi resolution with point-scale
dimensions, a valid parameter set on which repeated rounding is visible. -/
def cexParams300 : PrintMsg_Print_Params :=
  { validParams72 with dpi := 300, desired_dpi := 72 }

/-- The CSS reconciliation of cexParams300 with no surface override
(value checked below by kernel evaluation). -/
def cexRec300 : PrintMsg_Print_Params :=
  { cexParams300 with
    content_size := ⟨575, 753⟩,
    margin_top := 19,
    margin_left := 19 }

/-- A valid parameter set (tiny page at a 300 dpi device resolution) whose
no-override pixel recomputation is degenerate: page 13x13 and margins 6/6
all collapse to 4 and 2 pixels, leaving a content size of 0x0. -/
def cexParams4 : PrintMsg_Print_Params :=
  { validParams72 with
    page_size := ⟨13, 13⟩,
    content_size := ⟨1, 1⟩,
    printable_area := ⟨0, 0, 13, 13⟩,
    margin_top := 6,
    margin_left := 6,
    dpi := 300 }

/-- A surface whose CSS query leaves the supplied geometry unchanged. -/
def identityFrame : WebFrame := ⟨fun _ g => g⟩

/-- Fit-to-page target of the spec scenario: printer page 612x792. -/
def ppW : PrintMsg_Print_Params := validParams72

/-- Fit-to-page CSS source of the spec scenario: double Letter 1224x1584. -/
def tfW : PrintMsg_Print_Params :=
  { validParams72 with
    page_size := ⟨1224, 1584⟩,
    content_size := ⟨1152, 1512⟩,
    margin_top := 36,
    margin_left := 36 }

/-- Fit counterexample: the printer page is strictly larger than the CSS
page, so the source leaves the scale factor at 1. -/
def pp2cex : PrintMsg_Print_Params :=
  { validParams72 with page_size := ⟨10, 10⟩ }

def tf2cex : PrintMsg_Print_Params :=
  { validParams72 with
    page_size := ⟨5, 5⟩,
    content_size := ⟨4, 4⟩,
    margin_top := 0,
    margin_left := 0 }

/-- Orientation counterexample: portrait CSS page. -/
def cssL : PrintMsg_Print_Params :=
  { validParams72 with page_size := ⟨5, 10⟩ }

/-- Orientation counterexample: landscape page parameters. -/
def pL : PrintMsg_Print_Params :=
  { validParams72 with
    page_size := ⟨10, 5⟩,
    content_size := ⟨8, 3⟩,
    printable_area := ⟨1, 2, 10, 5⟩ }

/-! ### Helper lemmas -/

/-- Converting between identical 72-units-per-inch scales is the
identity. -/
theorem ConvertUnit_points_to_points (v : Int) : ConvertUnit v 72 72 = v := by
  unfold ConvertUnit
  have h36 : Int.tdiv 72 2 = 36 := by decide
  rw [h36]
  by_cases h : (0 : Int) ≤ v
  · rw [if_pos h, Int.tdiv_eq_ediv (by omega) (by omega)]
    omega
  · rw [if_neg h]
    have hneg : v * 72 - 36 = -((-v) * 72 + 36) := by ring
    rw [hneg, Int.neg_tdiv, Int.tdiv_eq_ediv (by omega) (by omega)]
    omega

/-- cppTrunc of an integer cast is that integer. -/
theorem cppTrunc_intCast (n : Int) : cppTrunc (n : ℚ) = n := by
  unfold cppTrunc
  split
  · exact Int.floor_intCast n
  · exact Int.ceil_intCast n

/-- cssPack does not touch the resolution field. -/
theorem cssPack_dpi (p : PrintMsg_Print_Params) (g : PixelGeom) (o : GSize)
    (r : PrintMsg_Print_Params) (h : cssPack p g o = Option.some r) :
    r.dpi = p.dpi := by
  unfold cssPack at h
  split at h
  · exact absurd h (by simp)
  · rw [Option.some.injEq] at h
    subst h
    rfl

/-- cssPack never alters the resolution, the shrink bounds, the cookie, the
scaling option, the flags or the printable area. -/
theorem cssPack_frame_fields (p : PrintMsg_Print_Params) (g : PixelGeom)
    (o : GSize) (r : PrintMsg_Print_Params)
    (h : cssPack p g o = Option.some r) :
    r.printable_area = p.printable_area ∧ r.desired_dpi = p.desired_dpi ∧
    r.document_cookie = p.document_cookie ∧
    r.print_scaling_option = p.print_scaling_option ∧
    r.selection_only = p.selection_only := by
  unfold cssPack at h
  split at h
  · exact absurd h (by simp)
  · rw [Option.some.injEq] at h
    subst h
    exact ⟨rfl, rfl, rfl, rfl, rfl⟩

/-- GetCssPrintParams does not touch the resolution field. -/
theorem GetCssPrintParams_dpi (frame : Option WebFrame) (idx : Int)
    (p r : PrintMsg_Print_Params)
    (h : GetCssPrintParams frame idx p = Option.some r) : r.dpi = p.dpi := by
  unfold GetCssPrintParams at h
  cases frame with
  | none => exact cssPack_dpi _ _ _ _ h
  | some f =>
    simp only at h
    cases hc : cssPack p
        (f.pageSizeAndMarginsInPixels idx (cssBasePixels p))
        (cssBasePixels p).page_size_in_pixels with
    | some r2 =>
      rw [hc, Option.some.injEq] at h
      subst h
      exact cssPack_dpi _ _ _ _ hc
    | none =>
      rw [hc] at h
      exact cssPack_dpi _ _ _ _ h

/-- EnsureOrientationMatches does not touch the resolution field. -/
theorem EnsureOrientationMatches_dpi (css p : PrintMsg_Print_Params) :
    (EnsureOrientationMatches css p).dpi = p.dpi := by
  unfold EnsureOrientationMatches
  split <;> rfl

/-- FitPrintParamsToPage does not touch the resolution field. -/
theorem FitPrintParamsToPage_dpi (pp tf : PrintMsg_Print_Params) :
    (FitPrintParamsToPage pp tf).2.dpi = tf.dpi := by
  unfold FitPrintParamsToPage
  split <;> rfl

/-- CalculatePrintParamsForCss does not touch the resolution field. -/
theorem CalculatePrintParamsForCss_dpi (frame : Option WebFrame) (idx : Int)
    (p : PrintMsg_Print_Params) (ic ft : Bool) (r : PrintMsg_Print_Params)
    (h : CalculatePrintParamsForCss frame idx p ic ft = Option.some r) :
    r.dpi = p.dpi := by
  unfold CalculatePrintParamsForCss at h
  cases hcss : GetCssPrintParams frame idx p with
  | none => rw [hcss] at h; exact absurd h (by simp)
  | some css =>
    rw [hcss] at h
    simp only at h
    have hcssdpi : css.dpi = p.dpi := GetCssPrintParams_dpi _ _ _ _ hcss
    split at h
    · rw [Option.some.injEq] at h
      subst h
      rw [EnsureOrientationMatches_dpi]
    · split at h
      · rw [Option.some.injEq] at h
        subst h
        rw [FitPrintParamsToPage_dpi]
        split <;> exact hcssdpi
      · rw [Option.some.injEq] at h
        subst h
        split <;> exact hcssdpi

/-- Binary minimum of rationals, spelled out by cases on ≤ so that it is
kernel-computable. -/
def ratMin (a b : ℚ) : ℚ := if a ≤ b then a else b

/-- ratMin agrees with the order-theoretic minimum. -/
theorem ratMin_eq_min (a b : ℚ) : ratMin a b = min a b := by
  unfold ratMin
  rw [min_def]

/-- The strict-comparison selection of the source equals the binary
minimum. -/
theorem if_lt_eq_ratMin (a b : ℚ) : (if a < b then a else b) = ratMin a b := by
  unfold ratMin
  rcases lt_trichotomy a b with h | h | h
  · rw [if_pos h, if_pos h.le]
  · subst h
    simp
  · rw [if_neg (not_lt.mpr h.le), if_neg (not_le.mpr h)]

/-- The scale factor of the amended fit-to-page claim: the minimum of the
width and height ratios when the target page exceeds the printer page in a
dimension, and 1 otherwise. -/
def fitToPageScaleSpec (pp tf : PrintMsg_Print_Params) : ℚ :=
  if pp.page_size.width < tf.page_size.width ∨
     pp.page_size.height < tf.page_size.height then
    ratMin ((pp.page_size.width : ℚ) / (tf.page_size.width : ℚ))
      ((pp.page_size.height : ℚ) / (tf.page_size.height : ℚ))
  else 1

/-- The updated parameters of the amended fit-to-page claim: content
dimensions scaled by the scale factor and truncated (hence unchanged when
the factor is 1), margins recentered as centering offset plus scaled
original margin, page size overwritten with the printer page size. -/
def fitToPageResultSpec (pp tf : PrintMsg_Print_Params) :
    PrintMsg_Print_Params :=
  { tf with
    margin_top := cppTrunc (((pp.page_size.height : ℚ) -
      (tf.page_size.height : ℚ) * fitToPageScaleSpec pp tf) / 2 +
      (tf.margin_top : ℚ) * fitToPageScaleSpec pp tf),
    margin_left := cppTrunc (((pp.page_size.width : ℚ) -
      (tf.page_size.width : ℚ) * fitToPageScaleSpec pp tf) / 2 +
      (tf.margin_left : ℚ) * fitToPageScaleSpec pp tf),
    content_size :=
      ⟨cppTrunc ((tf.content_size.width : ℚ) * fitToPageScaleSpec pp tf),
       cppTrunc ((tf.content_size.height : ℚ) * fitToPageScaleSpec pp tf)⟩,
    page_size := pp.page_size }

/-- C2 counterexample: with a printer page (10x10) strictly larger than the
target CSS page (5x5) the page sizes differ, yet FitPrintParamsToPage
returns scale factor 1 — not the minimum of the width and height ratios
(which is 2) — and does not scale the content accordingly. -/
theorem C2_fit_min_ratio_cex :
    pp2cex.page_size ≠ tf2cex.page_size ∧
    ratMin ((pp2cex.page_size.width : ℚ) / (tf2cex.page_size.width : ℚ))
      ((pp2cex.page_size.height : ℚ) / (tf2cex.page_size.height : ℚ)) = 2 ∧
    (FitPrintParamsToPage pp2cex tf2cex).1 ≠ 2 ∧
    (FitPrintParamsToPage pp2cex tf2cex).2.content_size.width ≠
      cppTrunc ((tf2cex.content_size.width : ℚ) * 2) :=
  ⟨by with_unfolding_all decide, by with_unfolding_all decide, by with_unfolding_all decide, by with_unfolding_all decide⟩

/-- C2 (amended): whenever the target page size differs from the printer
page size, FitPrintParamsToPage returns the minimum of the width and height
ratios when the target page exceeds the printer page in width or height and
1.0 otherwise (content unscaled in the latter case); in both cases the
margins are recentered as centering offset plus scaled original margin and
the target page size is overwritten with the printer page size. -/
theorem C2_fit_amended (pp tf : PrintMsg_Print_Params)
    (h : pp.page_size ≠ tf.page_size) :
    FitPrintParamsToPage pp tf =
      (fitToPageScaleSpec pp tf, fitToPageResultSpec pp tf) := by
  unfold FitPrintParamsToPage fitToPageResultSpec fitToPageScaleSpec
  rw [if_neg h]
  by_cases hg : (pp.page_size.width < tf.page_size.width ∨
      pp.page_size.height < tf.page_size.height)
  · simp only [if_pos hg, if_lt_eq_ratMin]
  · simp only [if_neg hg, mul_one, cppTrunc_intCast]

/-- C2 witness: the spec scenario — CSS page 1224x1584 (double Letter) fit
onto 612x792 yields scale factor one half with content halved and margins
recentered. -/
theorem C2_fit_amended_witness :
    (ppW.page_size ≠ tfW.page_size ∧
     FitPrintParamsToPage ppW tfW =
       (fitToPageScaleSpec ppW tfW, fitToPageResultSpec ppW tfW)) ∧
    fitToPageScaleSpec ppW tfW = 1/2 ∧
    (fitToPageResultSpec ppW tfW).content_size = ⟨576, 756⟩ :=
  ⟨⟨by with_unfolding_all decide, C2_fit_amended ppW tfW (by with_unfolding_all decide)⟩, by with_unfolding_all decide, by with_unfolding_all decide⟩

/-- C3 counterexample: a valid parameter set at 300 dpi whose reconciled
layout breaks the closure invariant in the height dimension — the content
height plus top and bottom margins (181 + 5 + 5 points) differs from the
page height in points (190). -/
theorem C3_layout_closure_cex :
    PrintMsg_Print_Params_IsValid cexParams300 = true ∧
    CalculatePrintParamsForCss Option.none 0 cexParams300 false false =
      Option.some cexRec300 ∧
    (CalculatePageLayoutFromPrintParams cexRec300).content_height +
      (CalculatePageLayoutFromPrintParams cexRec300).margin_top +
      (CalculatePageLayoutFromPrintParams cexRec300).margin_bottom ≠
      ConvertUnit cexRec300.page_size.height (GetDPI cexRec300)
        kPointsPerInch :=
  ⟨by with_unfolding_all decide, by with_unfolding_all decide, by with_unfolding_all decide⟩

/-- C3 (amended): for all valid PrintParameters whose device resolution is
72 dpi — the typographic point scale, on which every unit conversion of the
layout step is exact — CalculatePrintParamsForCss followed by
CalculatePageLayoutFromPrintParams yields a page layout in which content
width plus left and right margins equals the page width in points, and
content height plus top and bottom margins equals the page height in
points.  (At other resolutions the per-field rounding of the conversions
can break the sum, as the counterexample shows.) -/
theorem C3_layout_closure_points_dpi (frame : Option WebFrame)
    (page_index : Int) (p : PrintMsg_Print_Params)
    (ignore_css_margins fit_to_page : Bool) (r : PrintMsg_Print_Params)
    (_hvalid : PrintMsg_Print_Params_IsValid p = true)
    (hdpi : GetDPI p = 72)
    (h : CalculatePrintParamsForCss frame page_index p ignore_css_margins
      fit_to_page = Option.some r) :
    (CalculatePageLayoutFromPrintParams r).content_width +
      (CalculatePageLayoutFromPrintParams r).margin_left +
      (CalculatePageLayoutFromPrintParams r).margin_right =
      r.page_size.width ∧
    (CalculatePageLayoutFromPrintParams r).content_height +
      (CalculatePageLayoutFromPrintParams r).margin_top +
      (CalculatePageLayoutFromPrintParams r).margin_bottom =
      r.page_size.height := by
  have hrdpi : GetDPI r = 72 := by
    unfold GetDPI
    rw [CalculatePrintParamsForCss_dpi frame page_index p
      ignore_css_margins fit_to_page r h]
    exact hdpi
  unfold CalculatePageLayoutFromPrintParams
  simp only [hrdpi, kPointsPerInch, ConvertUnit_points_to_points]
  omega

/-- C3 witness: the spec baseline scenario (Letter at 72 dpi, margins 18/18,
no CSS override) reconciles to itself and its layout closes exactly. -/
theorem C3_layout_closure_points_dpi_witness :
    (PrintMsg_Print_Params_IsValid validParams72 = true ∧
     GetDPI validParams72 = 72 ∧
     CalculatePrintParamsForCss Option.none 0 validParams72 false false =
       Option.some validParams72) ∧
    ((CalculatePageLayoutFromPrintParams validParams72).content_width +
       (CalculatePageLayoutFromPrintParams validParams72).margin_left +
       (CalculatePageLayoutFromPrintParams validParams72).margin_right =
       validParams72.page_size.width ∧
     (CalculatePageLayoutFromPrintParams validParams72).content_height +
       (CalculatePageLayoutFromPrintParams validParams72).margin_top +
       (CalculatePageLayoutFromPrintParams validParams72).margin_bottom =
       validParams72.page_size.height) :=
  ⟨⟨by with_unfolding_all decide, by with_unfolding_all decide, by with_unfolding_all decide⟩,
   C3_layout_closure_points_dpi Option.none 0 validParams72 false false
     validParams72 (by with_unfolding_all decide) (by with_unfolding_all decide) (by with_unfolding_all decide)⟩

/-- C4: a valid parameter set on which the no-surface-override path of
GetCssPrintParams is itself degenerate, so the CHECK(frame != NULL)
assertion fails (modelled as none) both on a direct no-override call and on
the fallback recursion from an overridden call — refuting the guarantee
that the fallback path always recomputes a content size of at least 1. -/
theorem C4_fallback_degenerate_check_fails :
    PrintMsg_Print_Params_IsValid cexParams4 = true ∧
    GetCssPrintParams Option.none 0 cexParams4 = Option.none ∧
    GetCssPrintParams (Option.some identityFrame) 0 cexParams4 =
      Option.none :=
  ⟨by with_unfolding_all decide, by with_unfolding_all decide, by with_unfolding_all decide⟩

/-- C5 counterexample: with a landscape 10x5 page and a portrait CSS page,
one application of EnsureOrientationMatches swaps the page, and a second
application leaves the swap in place — the parameters do not return to
their original value. -/
theorem C5_orientation_involutive_cex :
    EnsureOrientationMatches cssL (EnsureOrientationMatches cssL pL) ≠
      pL := by with_unfolding_all decide

/-- C5 (amended): for page parameters with a non-square page size, applying
EnsureOrientationMatches twice with the same CSS parameters yields the same
result as applying it once — the correction is idempotent, not involutive
(a performed width/height swap is not undone by the second application). -/
theorem C5_orientation_idempotent (css p : PrintMsg_Print_Params)
    (h : p.page_size.width ≠ p.page_size.height) :
    EnsureOrientationMatches css (EnsureOrientationMatches css p) =
      EnsureOrientationMatches css p := by
  unfold EnsureOrientationMatches
  by_cases hc : (p.page_size.width > p.page_size.height) ↔
      (css.page_size.width > css.page_size.height)
  · rw [if_pos hc, if_pos hc]
  · rw [if_neg hc]
    rw [not_iff] at hc
    have hc2 : (p.page_size.height > p.page_size.width) ↔
        (css.page_size.width > css.page_size.height) := by
      rw [← hc]
      constructor <;> intro h2 <;> omega
    rw [if_pos hc2]

/-- C5 witness: the counterexample pair satisfies idempotence. -/
theorem C5_orientation_idempotent_witness :
    pL.page_size.width ≠ pL.page_size.height ∧
    EnsureOrientationMatches cssL (EnsureOrientationMatches cssL pL) =
      EnsureOrientationMatches cssL pL :=
  ⟨by with_unfolding_all decide, C5_orientation_idempotent cssL pL (by with_unfolding_all decide)⟩

/-- C9: EnsureOrientationMatches modifies at most the page size, the content
size and the printable-area size; the margins, the printable-area origin and
every other field are unchanged. -/
theorem C9_orientation_frame_effect (css p : PrintMsg_Print_Params) :
    (EnsureOrientationMatches css p).margin_top = p.margin_top ∧
    (EnsureOrientationMatches css p).margin_left = p.margin_left ∧
    (EnsureOrientationMatches css p).printable_area.x = p.printable_area.x ∧
    (EnsureOrientationMatches css p).printable_area.y = p.printable_area.y ∧
    (EnsureOrientationMatches css p).dpi = p.dpi ∧
    (EnsureOrientationMatches css p).desired_dpi = p.desired_dpi ∧
    (EnsureOrientationMatches css p).min_shrink = p.min_shrink ∧
    (EnsureOrientationMatches css p).max_shrink = p.max_shrink ∧
    (EnsureOrientationMatches css p).document_cookie = p.document_cookie ∧
    (EnsureOrientationMatches css p).print_scaling_option =
      p.print_scaling_option ∧
    (EnsureOrientationMatches css p).should_print_backgrounds =
      p.should_print_backgrounds ∧
    (EnsureOrientationMatches css p).selection_only = p.selection_only := by
  unfold EnsureOrientationMatches
  split <;>
    exact ⟨rfl, rfl, rfl, rfl, rfl, rfl, rfl, rfl, rfl, rfl, rfl, rfl⟩

/-! ### Controller claims -/

/-- Recognizes the host page-count notice among trace events. -/
def isPageCountNotice : TraceEvent → Bool
  | TraceEvent.DidGetPrintedPagesCount _ _ => true
  | _ => false

/-- Recognizes a per-page rasterization call among trace events. -/
def isRenderEvent : TraceEvent → Bool
  | TraceEvent.RenderPage _ => true
  | _ => false

/-- Recognizes the host failure notice among trace events. -/
def isFailureNotice : TraceEvent → Bool
  | TraceEvent.PrintingFailed _ => true
  | _ => false

/-- The controller at rest: no surface-preparation object, no session
parameters, default flags. -/
def s0 : HelperState :=
  { prep_frame_view := Option.none, print_pages_params := Option.none,
    ignore_css_margins := false, notify_browser_of_print_failure := true }

/-- A controller with a session mid-flight (surface-preparation object
present). -/
def s0busy : HelperState := { s0 with prep_frame_view := Option.some () }

/-- A benign collaborator environment: valid default settings, valid user
settings, one page. -/
def w0 : World :=
  { defaultSettings := validParams72,
    scriptedPrintResponse := { params := validParams72, pages := [] },
    pageCountAtCalculate := 1, pageCountAtPrint := 1,
    printingNodeOrPdfFrame := false }

/-- The environment of the zero-page-count scenario. -/
def w6 : World := { w0 with pageCountAtCalculate := 0, pageCountAtPrint := 0 }

/-- The environment of the cancelled-user-settings scenario: the scripted
print response carries a zero document cookie. -/
def w7 : World := { w0 with
  scriptedPrintResponse :=
    { params := { validParams72 with document_cookie := 0 }, pages := [] } }

/-- An explicit page list whose first entry is out of range for a three-page
document while its second entry is in range. -/
def pages8 : PrintMsg_PrintPages_Params :=
  { params := validParams72, pages := [5, 0] }

/-- DidFinishPrinting emits no page-count notice and no render call,
whatever the result and state. -/
theorem DidFinishPrinting_trace (r : PrintingResult) (s : HelperState) :
    ∀ e ∈ (DidFinishPrinting r s).2,
      isPageCountNotice e = false ∧ isRenderEvent e = false := by
  intro e he
  unfold DidFinishPrinting at he
  cases r with
  | OK => simp at he
  | FAIL_PRINT_INIT => simp at he
  | FAIL_PRINT =>
    cases hp : s.print_pages_params with
    | none => rw [hp] at he; simp at he
    | some pp =>
      rw [hp] at he
      by_cases hn : s.notify_browser_of_print_failure
      · simp [hn] at he
        subst he
        exact ⟨rfl, rfl⟩
      · simp [hn] at he

/-- C1: whenever the surface-preparation object is present, a Print call
returns immediately, leaves the whole controller state unchanged, sends
nothing and reports no result. -/
theorem C1_print_reentrant_noop (w : World) (silent print_background : Bool)
    (s : HelperState) (h : s.prep_frame_view.isSome = true) :
    Print w silent print_background s = (s, [], Option.none) := by
  unfold Print
  rw [if_pos h]

/-- C1 witness: a second Print while a session is mid-flight is a no-op. -/
theorem C1_print_reentrant_noop_witness :
    s0busy.prep_frame_view.isSome = true ∧
    Print w0 false false s0busy = (s0busy, [], Option.none) :=
  ⟨rfl, C1_print_reentrant_noop w0 false false s0busy rfl⟩

/-- C6: a zero expected page count from the rendering engine — at either
engine query site — terminates the session with FAIL_PRINT, with no
page-count notice and no page rendering: first, a Print call whose initial
page-count computation yields zero; second, a PrintPages continuation whose
StartPrinting yields zero. -/
theorem C6_zero_page_count_fail_print (w : World)
    (silent print_background : Bool) (s : HelperState)
    (hprep : s.prep_frame_view = Option.none)
    (hvalid : PrintMsg_Print_Params_IsValid w.defaultSettings = true)
    (hzero : w.pageCountAtCalculate = 0) :
    ((Print w silent print_background s).2.2 =
       Option.some PrintingResult.FAIL_PRINT ∧
     ∀ e ∈ (Print w silent print_background s).2.1,
       isPageCountNotice e = false ∧ isRenderEvent e = false) ∧
    (∀ (w2 : World) (s2 : HelperState), w2.pageCountAtPrint = 0 →
      s2.prep_frame_view.isSome = true →
      (PrintPages w2 s2).2.2 = Option.some PrintingResult.FAIL_PRINT ∧
      ∀ e ∈ (PrintPages w2 s2).2.1,
        isPageCountNotice e = false ∧ isRenderEvent e = false) := by
  constructor
  · have hred : Print w silent print_background s =
        ((DidFinishPrinting PrintingResult.FAIL_PRINT
            (SetPrintPagesParams
              { params := { w.defaultSettings with print_scaling_option :=
                  if !w.printingNodeOrPdfFrame then
                    WebPrintScalingOption.fitToPrintableArea
                  else WebPrintScalingOption.sourceSize },
                pages := [] }
              { s with ignore_css_margins := false })).1,
          [TraceEvent.GetDefaultPrintSettings] ++
            (DidFinishPrinting PrintingResult.FAIL_PRINT
              (SetPrintPagesParams
                { params := { w.defaultSettings with print_scaling_option :=
                    if !w.printingNodeOrPdfFrame then
                      WebPrintScalingOption.fitToPrintableArea
                    else WebPrintScalingOption.sourceSize },
                  pages := [] }
                { s with ignore_css_margins := false })).2,
          Option.some PrintingResult.FAIL_PRINT) := by
      simp only [Print, CalculateNumberOfPages, InitPrintSettings, hprep,
        hvalid, hzero, Option.isSome]
      rfl
    rw [hred]
    constructor
    · rfl
    · intro e he
      simp only [List.mem_append, List.mem_singleton] at he
      rcases he with he | he
      · subst he
        exact ⟨rfl, rfl⟩
      · exact DidFinishPrinting_trace _ _ e he
  · intro w2 s2 hz2 hp2
    cases hpv : s2.prep_frame_view with
    | none => rw [hpv] at hp2; simp at hp2
    | some u =>
      have hred : PrintPages w2 s2 =
          ((DidFinishPrinting PrintingResult.FAIL_PRINT s2).1,
            (DidFinishPrinting PrintingResult.FAIL_PRINT s2).2,
            Option.some PrintingResult.FAIL_PRINT) := by
        simp only [PrintPages, hpv, hz2]
        rfl
      rw [hred]
      exact ⟨rfl,
        fun e he => DidFinishPrinting_trace PrintingResult.FAIL_PRINT s2 e he⟩

/-- C6 witness: the zero-page-count environment drives both sites to
FAIL_PRINT. -/
theorem C6_zero_page_count_fail_print_witness :
    (s0.prep_frame_view = Option.none ∧
     PrintMsg_Print_Params_IsValid w6.defaultSettings = true ∧
     w6.pageCountAtCalculate = 0) ∧
    (Print w6 true false s0).2.2 = Option.some PrintingResult.FAIL_PRINT ∧
    (PrintPages w6 s0busy).2.2 = Option.some PrintingResult.FAIL_PRINT :=
  ⟨⟨rfl, by with_unfolding_all decide, rfl⟩,
   (C6_zero_page_count_fail_print w6 true false s0 rfl
      (by with_unfolding_all decide) rfl).1.1,
   ((C6_zero_page_count_fail_print w6 true false s0 rfl
       (by with_unfolding_all decide) rfl).2 w6 s0busy rfl rfl).1⟩

/-- C7: in a non-silent session, a user-settings response carrying a zero
resolution or a zero document cookie terminates the session with result OK:
the surface-preparation object and the session parameters end up cleared,
and no failure notice is sent. -/
theorem C7_cancelled_settings_ok (w : World) (print_background : Bool)
    (s : HelperState)
    (hprep : s.prep_frame_view = Option.none)
    (hvalid : PrintMsg_Print_Params_IsValid w.defaultSettings = true)
    (hcnt : w.pageCountAtCalculate ≠ 0)
    (hresp : w.scriptedPrintResponse.params.dpi = 0 ∨
             w.scriptedPrintResponse.params.document_cookie = 0) :
    (Print w false print_background s).2.2 = Option.some PrintingResult.OK ∧
    (Print w false print_background s).1.prep_frame_view = Option.none ∧
    (Print w false print_background s).1.print_pages_params = Option.none ∧
    ∀ e ∈ (Print w false print_background s).2.1,
      isFailureNotice e = false := by
  have hok : (decide (w.scriptedPrintResponse.params.dpi ≠ 0) &&
      decide (w.scriptedPrintResponse.params.document_cookie ≠ 0)) = false := by
    rcases hresp with h | h <;> simp [h]
  have hred : Print w false print_background s =
      ({ prep_frame_view := Option.none, print_pages_params := Option.none,
         ignore_css_margins := false,
         notify_browser_of_print_failure := true },
       [TraceEvent.GetDefaultPrintSettings,
        TraceEvent.ScriptedPrint w.defaultSettings.document_cookie
          w.pageCountAtCalculate],
       Option.some PrintingResult.OK) := by
    simp only [Print, CalculateNumberOfPages, InitPrintSettings,
      SetPrintPagesParams, GetPrintSettingsFromUser, DidFinishPrinting,
      hprep, hvalid, hok]
    simp [hcnt]
  rw [hred]
  refine ⟨rfl, rfl, rfl, ?_⟩
  intro e he
  simp only [List.mem_cons, List.mem_singleton] at he
  rcases he with he | he | he
  · subst he; rfl
  · subst he; rfl
  · exact absurd he (List.not_mem_nil e)

/-- C7 witness: a zero-cookie user response aborts silently with OK. -/
theorem C7_cancelled_settings_ok_witness :
    (s0.prep_frame_view = Option.none ∧
     PrintMsg_Print_Params_IsValid w7.defaultSettings = true ∧
     w7.pageCountAtCalculate ≠ 0 ∧
     w7.scriptedPrintResponse.params.document_cookie = 0) ∧
    (Print w7 false false s0).2.2 = Option.some PrintingResult.OK ∧
    (Print w7 false false s0).1.print_pages_params = Option.none :=
  ⟨⟨rfl, by with_unfolding_all decide, by with_unfolding_all decide, rfl⟩,
   (C7_cancelled_settings_ok w7 false s0 rfl (by with_unfolding_all decide)
      (by with_unfolding_all decide) (Or.inr rfl)).1,
   (C7_cancelled_settings_ok w7 false s0 rfl (by with_unfolding_all decide)
      (by with_unfolding_all decide) (Or.inr rfl)).2.2.1⟩

/-- The explicit-pages loop renders the longest initial run of requested
indices below the page count. -/
theorem printPagesLoop_eq_takeWhile (pages : List Int) (n : Int) :
    printPagesLoop pages n =
      pages.takeWhile (fun i => decide (i < n)) := by
  induction pages with
  | nil => rfl
  | cons p rest ih =>
    unfold printPagesLoop
    rw [List.takeWhile_cons]
    by_cases hp : p ≥ n
    · rw [if_pos hp]
      simp [not_lt.mpr hp]
    · rw [if_neg hp]
      simp only [not_le.mp hp, decide_True]
      rw [ih]
      simp [not_le.mp hp]

/-- C8 counterexample: for the requested list [5, 0] with page count 3, the
loop renders nothing — the in-range index 0 behind the out-of-range index 5
is not rendered, unlike the order-preserving filter the claim describes. -/
theorem C8_explicit_pages_filter_cex :
    pages8.pages ≠ [] ∧
    (PrintPagesNative pages8 3).2 ≠
      pages8.pages.filter (fun i => decide (i < 3)) :=
  ⟨by decide, by decide⟩

/-- C8 (amended): for every non-empty explicit list of requested page
indices, the rendering loop succeeds and renders exactly the longest prefix
of the requested list whose indices are all below the page count, in the
caller-given order — iteration stops at the first out-of-range index rather
than filtering it out. -/
theorem C8_explicit_pages_amended (pp : PrintMsg_PrintPages_Params)
    (page_count : Int) (h : pp.pages ≠ []) :
    PrintPagesNative pp page_count =
      (true, pp.pages.takeWhile (fun i => decide (i < page_count))) := by
  unfold PrintPagesNative
  rw [if_neg h, printPagesLoop_eq_takeWhile]

/-- C8 witness: the amended statement at the counterexample input. -/
theorem C8_explicit_pages_amended_witness :
    pages8.pages ≠ [] ∧
    PrintPagesNative pages8 3 =
      (true, pages8.pages.takeWhile (fun i => decide (i < 3))) :=
  ⟨by decide, C8_explicit_pages_amended pages8 3 (by decide)⟩

/-- C10: InitPrintSettings replaces the session parameters wholesale with
the host response — page list cleared, scaling option set from the
fit-to-paper flag — and resets the ignore-CSS-margins flag, independently of
the prior state and also when validation fails (the returned flag equals the
validity of the response); the surface-preparation object and the
failure-notification flag are untouched. -/
theorem C10_init_settings_wholesale (fit_to_paper_size : Bool)
    (response : PrintMsg_Print_Params) (s : HelperState) :
    (InitPrintSettings fit_to_paper_size response s).1.print_pages_params =
      Option.some
        { params := { response with print_scaling_option :=
            if fit_to_paper_size then
              WebPrintScalingOption.fitToPrintableArea
            else WebPrintScalingOption.sourceSize },
          pages := [] } ∧
    (InitPrintSettings fit_to_paper_size response s).1.ignore_css_margins =
      false ∧
    (InitPrintSettings fit_to_paper_size response s).2.2 =
      PrintMsg_Print_Params_IsValid response ∧
    (InitPrintSettings fit_to_paper_size response s).1.prep_frame_view =
      s.prep_frame_view ∧
    (InitPrintSettings fit_to_paper_size
        response s).1.notify_browser_of_print_failure =
      s.notify_browser_of_print_failure :=
  ⟨rfl, rfl, rfl, rfl, rfl⟩

end Printing
